import Mathlib

/-!
Shallow embedding of the DNS-sync reconciliation core of the repository
(`.github/scripts/dns-sync.js` and `.github/scripts/utils/file-utils.js`).

JavaScript conventions are modelled explicitly:
  * a thrown `Error` is a `JsError` value carrying its `message`, its optional
    `code` (set by `fs` errors, e.g. `"ENOENT"`) and whether it is a
    `SyntaxError` (as thrown by `JSON.parse`);
  * an environment variable is an `Option String` (`none` = unset), and the
    JavaScript truthiness test `if (v)` on such a value is `truthy`;
  * a property lookup `obj[key]` on a plain object literal consults the
    prototype chain, so for `Object.prototype` member names it yields the
    inherited member even though the literal does not define the key
    (`JsStr.protoFn` / `JsStr.protoObj` below);
  * the filesystem is an abstract map from absolute path to `FileState`;
  * `new Date().toISOString()` is modelled by the environment field `now`;
  * the two observable side effects, dispatching a request to the external
    DNS collaborator and persisting a result record via
    `FileUtils.writeResultFile`, are recorded as traces in `RunOut`.
-/

/-- A JavaScript `Error` value as observed by the code under verification. -/
structure JsError where
  message : String
  code : Option String := none
  isParseErr : Bool := false
deriving DecidableEq, Repr

/-- Builds the plain `new Error(msg)` value (no `code`, not a `SyntaxError`). -/
def mkErr (m : String) : JsError := { message := m }

deriving instance DecidableEq for Except

/-- Result of a string-valued property lookup on a JS object literal:
either a proper string, or an `Object.prototype` member leaked through the
prototype chain (`toString` and friends, or the `__proto__` object). -/
inductive JsStr
  | str (s : String)
  | protoFn (name : String)
  | protoObj
deriving DecidableEq, Repr

/-- Own-property-less keys for which `({})[key]` still yields a (truthy)
inherited function from `Object.prototype`. -/
def objectProtoFnNames : List String :=
  ["constructor", "hasOwnProperty", "isPrototypeOf", "propertyIsEnumerable",
   "toLocaleString", "toString", "valueOf"]

/-- The result of `DNSSyncHandler.parseDomain` (dns-sync.js lines 17-58). -/
structure DomainReference where
  domain : String
  sld : String
deriving DecidableEq, Repr

/-- A descriptor record parsed from a whois JSON file, or synthesized in the
manual path. Files are arbitrary JSON, so the three fields the code inspects
are optional and any remaining payload is kept opaque in `extra`. -/
structure WhoisData where
  domain : Option String := none
  sld : Option String := none
  operation : Option JsStr := none
  extra : List (String × String) := []
deriving DecidableEq, Repr

/-- One entry of the PR change-set (`{filename, status}`). -/
structure ChangedFile where
  filename : String
  status : String
deriving DecidableEq, Repr

/-- JavaScript truthiness of an environment variable (`undefined` and `""`
are falsy). -/
def truthy : Option String → Bool
  | none => false
  | some s => s != ""

/-- Models `v || d` for an environment variable `v` and default `d`. -/
def orDefault (o : Option String) (d : String) : String :=
  match o with
  | none => d
  | some s => if s = "" then d else s

/-- Structural (kernel-computable) version of `String.startsWith`. -/
def strStartsWith (s pre : String) : Bool := pre.data.isPrefixOf s.data

/-- Structural (kernel-computable) version of `String.endsWith`. -/
def strEndsWith (s suf : String) : Bool := suf.data.isSuffixOf s.data

/-- Structural version of `String.drop`. -/
def strDrop (s : String) (n : Nat) : String := String.mk (s.data.drop n)

/-- Structural version of `String.dropRight`. -/
def strDropRight (s : String) (n : Nat) : String :=
  String.mk (s.data.take (s.data.length - n))

/-- Splits a character list at every occurrence of `c`, the semantics of
JavaScript `String.prototype.split` with a one-character separator (an empty
input yields one empty field, a trailing separator yields a trailing empty
field). -/
def splitOnCharList (c : Char) : List Char → List (List Char)
  | [] => [[]]
  | x :: xs =>
    match splitOnCharList c xs with
    | [] => [[]]
    | y :: ys => if x = c then [] :: y :: ys else (x :: y) :: ys

/-- String wrapper around `splitOnCharList`. -/
def strSplitOnChar (c : Char) (s : String) : List String :=
  (splitOnCharList c s.data).map String.mk

/-- Locates the first occurrence of `pat` in a character list, returning the
part before it and the part after it. -/
def findSplit (pat : List Char) : List Char → Option (List Char × List Char)
  | [] => if pat.isEmpty then some ([], []) else none
  | x :: xs =>
    if pat.isPrefixOf (x :: xs) then some ([], (x :: xs).drop pat.length)
    else
      match findSplit pat xs with
      | none => none
      | some (pre, post) => some (x :: pre, post)

/-- Models JavaScript `s.replace(pat, rep)` with a string pattern: replaces
only the FIRST occurrence of `pat`, anywhere in the string. -/
def replaceFirst (s pat rep : String) : String :=
  match findSplit pat.data s.data with
  | none => s
  | some (pre, post) => String.mk (pre ++ rep.data ++ post)

/-- The cleaning step of `parseDomain` (dns-sync.js lines 23-25): strip one
leading `whois/` (anchored regex `^whois\/`) and one trailing `.json`
(anchored regex `\.json$`). -/
def cleanDomain (s : String) : String :=
  let s1 := if strStartsWith s "whois/" then strDrop s 6 else s
  if strEndsWith s1 ".json" then strDropRight s1 5 else s1

/-- The label list of the cleaned domain string: `cleanDomain(s).split('.')`
(dns-sync.js line 30). -/
def domainParts (s : String) : List String := strSplitOnChar '.' (cleanDomain s)

/-- Message of the error thrown at dns-sync.js line 19. -/
def domainRequiredMsg : String := "Domain string is required and must be a string"

/-- Message of the error thrown at dns-sync.js line 33. -/
def invalidDomainMsg (domainString : String) : String :=
  s!"Invalid domain format: {domainString}. Expected format: domain.sld"

/-- `DNSSyncHandler.parseDomain` (dns-sync.js lines 17-58). The argument is
`none` for a missing / non-string JavaScript value (which fails the
`typeof domainString !== 'string'` guard exactly like `""` fails `!domainString`). -/
def parseDomain : Option String → Except JsError DomainReference
  | none => .error (mkErr domainRequiredMsg)
  | some s =>
    if s = "" then .error (mkErr domainRequiredMsg)
    else
      match domainParts s with
      | [] => .error (mkErr (invalidDomainMsg s))
      | [_] => .error (mkErr (invalidDomainMsg s))
      | [a, b] => .ok { domain := a, sld := b }
      | [a, b, c] => .ok { domain := a, sld := b ++ "." ++ c }
      | a :: rest => .ok { domain := a, sld := String.intercalate "." rest }

/-- `DNSSyncHandler.mapOperationType` (dns-sync.js lines 328-338):
`operationMap[operation] || operation` on the five-entry object literal.
A lookup miss on the literal still consults `Object.prototype`, so the
member names of `Object.prototype` yield the (truthy) inherited member and
the `|| operation` fallback is skipped for them. -/
def mapOperationType (operation : String) : JsStr :=
  if operation = "add" then .str "registration"
  else if operation = "update" then .str "update"
  else if operation = "delete" then .str "remove"
  else if operation = "registration" then .str "registration"
  else if operation = "remove" then .str "remove"
  else if operation = "__proto__" then .protoObj
  else if objectProtoFnNames.contains operation then .protoFn operation
  else .str operation

/-- The filter of `FileUtils.extractWhoisFiles` (file-utils.js lines 73-76). -/
def isWhoisDescriptorFile (f : ChangedFile) : Bool :=
  strStartsWith f.filename "whois/" && strEndsWith f.filename ".json"

/-- Message of the error thrown at file-utils.js line 79. -/
def noWhoisFilesMsg : String := "No whois files found in PR changes"

/-- Message of the error thrown at file-utils.js line 83. -/
def multipleWhoisFilesMsg (names : List String) : String :=
  let joined := String.intercalate ", " names
  s!"Multiple whois files found in PR changes: {joined}"

/-- `FileUtils.extractWhoisFiles` (file-utils.js lines 72-87). -/
def extractWhoisFiles (files : List ChangedFile) : Except JsError ChangedFile :=
  let whoisFiles := files.filter isWhoisDescriptorFile
  match whoisFiles with
  | [] => .error (mkErr noWhoisFilesMsg)
  | [f] => .ok f
  | fs => .error (mkErr (multipleWhoisFilesMsg (fs.map ChangedFile.filename)))

/-- Message of the error thrown at file-utils.js line 100. -/
def noNonRemovedWhoisFilesMsg : String := "No non-removed whois files found in PR changes"

/-- Message of the error thrown at file-utils.js line 104. -/
def multipleNonRemovedWhoisFilesMsg (names : List String) : String :=
  let joined := String.intercalate ", " names
  s!"Multiple non-removed whois files found in PR changes: {joined}"

/-- `FileUtils.extractNonRemovedWhoisFiles` (file-utils.js lines 92-108). -/
def extractNonRemovedWhoisFiles (files : List ChangedFile) : Except JsError ChangedFile :=
  let whoisFiles := files.filter
    (fun f => isWhoisDescriptorFile f && f.status != "removed")
  match whoisFiles with
  | [] => .error (mkErr noNonRemovedWhoisFilesMsg)
  | [f] => .ok f
  | fs => .error (mkErr (multipleNonRemovedWhoisFilesMsg (fs.map ChangedFile.filename)))

/-- State of one path in the abstract filesystem: absent (`fs.access`
rejects with `ENOENT`), or a present file whose `JSON.parse` outcome is
`ok data` or a `SyntaxError` with the given message, or a present file whose
`fs.readFile` rejects with the given error code and message. -/
inductive FileState
  | missing
  | file (parsed : Except String WhoisData)
  | ioErr (code : Option String) (msg : String)
deriving DecidableEq, Repr

/-- Abstract filesystem: map from absolute path to state. -/
abbrev Fs : Type := String → FileState

/-- Source of the `pr-files.json` change-set read in `handlePRMerge`
(dns-sync.js lines 230-247): the file may be absent (empty list is used),
present and parseable, or unreadable/unparseable. -/
inductive PrFilesSource
  | absent
  | malformed (msg : String)
  | parsed (files : List ChangedFile)
deriving DecidableEq, Repr

/-- The process environment and ambient context of one run: the environment
variables read by dns-sync.js, the script-installation-determined workspace
root of file-utils.js line 12, the working directory, the change-set file and
the current clock reading (`new Date().toISOString()`). -/
structure Env where
  manualDomain : Option String := none
  manualOperation : Option String := none
  manualWhoisFile : Option String := none
  forceSyncRaw : Option String := none
  whoisFilePath : Option String := none
  prTitle : Option String := none
  opOverride : Option String := none
  githubActor : Option String := none
  workspaceRoot : String := "/workspace"
  cwd : String := "/cwd"
  prFiles : PrFilesSource := .absent
  now : String := "1970-01-01T00:00:00.000Z"

/-- `path.join(a, b)` / `path.resolve(a, b)` for a relative `b`, at the level
of abstraction the claims need (no `..`-segment normalization inside `b`). -/
def pathJoin (a b : String) : String := a ++ "/" ++ b

/-- Drops the last `/`-separated segment of a path (one `..` step of
`path.resolve`). -/
def parentDir (p : String) : String :=
  String.intercalate "/" (strSplitOnChar '/' p).dropLast

/-- Candidate (a) of file-utils.js lines 12-13: the logical path joined to
the fixed workspace root `path.resolve(__dirname, '../../')`. -/
def candidateFull (env : Env) (filePath : String) : String :=
  pathJoin env.workspaceRoot filePath

/-- Candidate (b) of file-utils.js line 26:
`path.resolve(process.cwd(), '../../', filePath)`. -/
def candidateAlt1 (env : Env) (filePath : String) : String :=
  pathJoin (parentDir (parentDir env.cwd)) filePath

/-- Candidate (c) of file-utils.js line 27: `path.resolve(process.cwd(), filePath)`. -/
def candidateAlt2 (env : Env) (filePath : String) : String :=
  pathJoin env.cwd filePath

/-- One `fs.access` + `fs.readFile` + `JSON.parse` attempt at a concrete
path, producing the raw JsError the surrounding `try` blocks discriminate on. -/
def readAt (fs : Fs) (p : String) : Except JsError WhoisData :=
  match fs p with
  | .missing => .error { message := s!"ENOENT: no such file or directory, access {p}", code := some "ENOENT" }
  | .file (.ok d) => .ok d
  | .file (.error m) => .error { message := m, isParseErr := true }
  | .ioErr c m => .error { message := m, code := c }

/-- Message of the error constructed at file-utils.js line 48. -/
def notFoundAnyPathMsg (filePath : String) : String :=
  s!"Whois file not found at any path: {filePath}"

/-- Message of the error thrown at file-utils.js line 60 (ENOENT branch). -/
def notFoundMsg (filePath : String) : String :=
  s!"Whois file not found: {filePath}"

/-- Message of the error thrown at file-utils.js line 63 (SyntaxError branch). -/
def invalidJsonMsg (filePath : String) : String :=
  s!"Invalid JSON format in whois file: {filePath}"

/-- Message of the generic wrap thrown at file-utils.js line 65. -/
def readFailWrapMsg (filePath m : String) : String :=
  s!"Failed to read whois file {filePath}: {m}"

/-- `FileUtils.readWhoisFile` (file-utils.js lines 9-67). The primary
candidate is gated by `fs.access`: if it exists, the read commits there and
any error propagates to the outer catch (ENOENT / SyntaxError / generic
wrap). If it does not exist, the two alternative candidates are tried inside
nested try/catch blocks, so ANY failure at an alternative (missing, I/O
error, or `JSON.parse` SyntaxError) falls through to the next one, ending in
the constructed `Whois file not found at any path` error, which the outer
catch then wraps generically (it has no `code` and is not a `SyntaxError`). -/
def readWhoisFile (env : Env) (fs : Fs) (filePath : String) : Except JsError WhoisData :=
  let inner : Except JsError WhoisData :=
    match fs (candidateFull env filePath) with
    | .missing =>
      match readAt fs (candidateAlt1 env filePath) with
      | .ok d => .ok d
      | .error _ =>
        match readAt fs (candidateAlt2 env filePath) with
        | .ok d => .ok d
        | .error _ => .error (mkErr (notFoundAnyPathMsg filePath))
    | _ => readAt fs (candidateFull env filePath)
  match inner with
  | .ok d => .ok d
  | .error e =>
    if e.code = some "ENOENT" then
      .error (mkErr (notFoundMsg filePath))
    else if e.isParseErr then
      .error (mkErr (invalidJsonMsg filePath))
    else
      .error (mkErr (readFailWrapMsg filePath e.message))

/-- Opaque result payload returned by the external DNS-operations
collaborator (`DNSRecordManager`). -/
structure SyncResult where
  raw : String
deriving DecidableEq, Repr

/-- A request dispatched to the external DNS collaborator: the argument list
of `dnsManager.handleManualSync` (dns-sync.js lines 193-201) or of
`dnsManager.handlePRMerge` in the deletion branch (lines 284-289) and the
registration/update branch (line 315). -/
inductive Request
  | manualSync (title : String) (descriptor : Option WhoisData) (operation : JsStr)
      (forceSync : Bool) (triggeredBy : String)
  | prDelete (title : String) (domain : String) (sld : String) (operation : String)
      (originalData : Option WhoisData)
  | prUpsert (title : String) (descriptor : WhoisData)
deriving DecidableEq, Repr

/-- The external DNS collaborator, abstracted as a function that may fail. -/
abbrev Dns : Type := Request → Except JsError SyncResult

/-- One record persisted by `FileUtils.writeResultFile` (file-utils.js lines
132-145): the collaborator's result spread together with a timestamp, or the
error record built in `handleSync`'s catch (dns-sync.js lines 79-84). -/
inductive ResultRecord
  | success (timestamp : String) (r : SyncResult)
  | failure (error : String) (timestamp : String) (triggerType : String)
deriving DecidableEq, Repr

/-- Observable outcome of a run: the value returned / error thrown, the
requests dispatched to the DNS collaborator, and the result records written,
each trace in chronological order. -/
structure RunOut where
  result : Except JsError SyncResult
  dispatched : List Request
  written : List ResultRecord
deriving DecidableEq, Repr

/-- `DNSSyncHandler.determineTriggerType` (dns-sync.js lines 94-102). -/
def determineTriggerType (env : Env) : String :=
  if truthy env.manualDomain || truthy env.manualOperation then "manual" else "pr_merge"

/-- Descriptor path used by the manual path when an explicit whois-file
reference is given (dns-sync.js lines 129-135). -/
def manualFilePath (env : Env) (wf : String) : String :=
  if truthy env.whoisFilePath then
    (env.whoisFilePath.getD "") ++ "/" ++ replaceFirst wf "whois/" ""
  else if strStartsWith wf "whois/" then wf
  else "whois/" ++ wf

/-- Descriptor path conventionally named after the manual domain
(dns-sync.js lines 153-159). -/
def manualDomainFilePath (env : Env) (d : String) : String :=
  if truthy env.whoisFilePath then (env.whoisFilePath.getD "") ++ "/" ++ d ++ ".json"
  else "whois/" ++ d ++ ".json"

/-- Step 1 of the manual path (dns-sync.js lines 128-149): optional load from
the explicit whois-file reference, with the force-sync downgrade. -/
def manualLoadFromFile (env : Env) (fs : Fs) (forceSync : Bool) :
    Except JsError (Option WhoisData) :=
  if truthy env.manualWhoisFile then
    let fullPath := manualFilePath env (env.manualWhoisFile.getD "")
    match readWhoisFile env fs fullPath with
    | .ok d => .ok (some d)
    | .error e =>
      if forceSync then .ok none
      else
        let m := e.message
        .error (mkErr s!"Failed to read WHOIS file {fullPath}: {m}")
  else .ok none

/-- Step 2 of the manual path (dns-sync.js lines 152-172): when a domain is
given and no data was loaded yet, try the conventionally named file, with the
force-sync downgrade. -/
def manualLoadFromDomain (env : Env) (fs : Fs) (forceSync : Bool)
    (wd : Option WhoisData) : Except JsError (Option WhoisData) :=
  if truthy env.manualDomain && wd.isNone then
    let d := env.manualDomain.getD ""
    match readWhoisFile env fs (manualDomainFilePath env d) with
    | .ok dd => .ok (some dd)
    | .error e =>
      if forceSync then .ok none
      else
        let m := e.message
        .error (mkErr s!"Failed to read WHOIS file for domain {d}: {m}")
  else .ok wd

/-- Step 3 of the manual path (dns-sync.js lines 175-186): when still no data
but a domain string exists, synthesize a minimal descriptor from the parsed
domain and the raw requested operation string. -/
def manualSynthesize (env : Env) (operation : String) (wd : Option WhoisData) :
    Except JsError (Option WhoisData) :=
  if wd.isNone && truthy env.manualDomain then
    match parseDomain env.manualDomain with
    | .ok r =>
      .ok (some { domain := some r.domain, sld := some r.sld,
                  operation := some (.str operation) })
    | .error e => .error e
  else .ok wd

/-- Message of the error thrown at dns-sync.js line 121. -/
def missingManualInputMsg : String :=
  "Either MANUAL_DOMAIN or MANUAL_WHOIS_FILE must be provided for manual trigger"

/-- The reconciliation phase of `DNSSyncHandler.handleManualTrigger`
(dns-sync.js lines 107-191): everything up to and excluding the
`dnsManager.handleManualSync` call, producing the single sync request (or the
error thrown on the way). The dispatched options operation is the mapped one
(line 189), while a synthesized descriptor keeps the raw one (line 184). -/
def manualRequest (env : Env) (fs : Fs) : Except JsError Request :=
  let operation := orDefault env.manualOperation "auto"
  let forceSync := env.forceSyncRaw = some "true"
  if !truthy env.manualDomain && !truthy env.manualWhoisFile then
    .error (mkErr missingManualInputMsg)
  else
    match manualLoadFromFile env fs forceSync with
    | .error e => .error e
    | .ok wd1 =>
      match manualLoadFromDomain env fs forceSync wd1 with
      | .error e => .error e
      | .ok wd2 =>
        match manualSynthesize env operation wd2 with
        | .error e => .error e
        | .ok whoisData =>
          .ok (.manualSync (orDefault env.prTitle "Manual DNS Sync") whoisData
            (mapOperationType operation) forceSync (orDefault env.githubActor "unknown"))

/-- The tail every control path of the two handlers shares: dispatch the
reconciled request to the DNS collaborator (unless reconciliation already
failed), then persist the collaborator result via `FileUtils.writeResultFile`
(dns-sync.js lines 193-204, 284-292 and 315-318). -/
def dispatchRun (env : Env) (dns : Dns) (reqE : Except JsError Request) : RunOut :=
  match reqE with
  | .error e => { result := .error e, dispatched := [], written := [] }
  | .ok req =>
    match dns req with
    | .error e => { result := .error e, dispatched := [req], written := [] }
    | .ok r => { result := .ok r, dispatched := [req], written := [.success env.now r] }

/-- `DNSSyncHandler.handleManualTrigger` (dns-sync.js lines 107-208). -/
def handleManualTrigger (env : Env) (fs : Fs) (dns : Dns) : RunOut :=
  dispatchRun env dns (manualRequest env fs)

/-- Descriptor path used by the PR-merge path when a separate whois-file base
directory is configured (dns-sync.js lines 267-268 and 299-303; both branches
compute the same expression). -/
def prReadPath (env : Env) (filename : String) : String :=
  if truthy env.whoisFilePath then
    (env.whoisFilePath.getD "") ++ "/" ++ replaceFirst filename "whois/" ""
  else filename

/-- The best-effort original-data read of the deletion branch (dns-sync.js
lines 263-281): attempted only when a separate base directory is configured,
and any failure (including a domain/sld mismatch, which is only logged at
line 276) leaves the data at `none` without aborting. -/
def prDeleteOriginalData (env : Env) (fs : Fs) (filename : String) : Option WhoisData :=
  if truthy env.whoisFilePath then
    match readWhoisFile env fs (prReadPath env filename) with
    | .ok d => some d
    | .error _ => none
  else none

/-- The deletion branch of `handlePRMerge` (dns-sync.js lines 255-289):
parse the domain from the filename, best-effort read of the original data,
then build the delete request. -/
def prDeleteRequest (env : Env) (fs : Fs) (title : String) (whoisFile : ChangedFile) :
    Except JsError Request :=
  match parseDomain (some whoisFile.filename) with
  | .error e => .error e
  | .ok ref =>
    .ok (.prDelete title ref.domain ref.sld "delete"
      (prDeleteOriginalData env fs whoisFile.filename))

/-- The registration/update branch of `handlePRMerge` (dns-sync.js lines
296-315): load the descriptor, overwrite its operation field with the mapped
override when the override is not `auto`, then build the upsert request. -/
def prUpsertRequest (env : Env) (fs : Fs) (title : String) (whoisFile : ChangedFile) :
    Except JsError Request :=
  let operation := orDefault env.opOverride "auto"
  match readWhoisFile env fs (prReadPath env whoisFile.filename) with
  | .error e => .error e
  | .ok wd0 =>
    let wd := if operation ≠ "auto"
      then { wd0 with operation := some (mapOperationType operation) }
      else wd0
    .ok (.prUpsert title wd)

/-- Message of the error thrown at dns-sync.js line 222. -/
def prTitleRequiredMsg : String := "PR_TITLE environment variable is required"

/-- The reconciliation phase of `DNSSyncHandler.handlePRMerge` (dns-sync.js
lines 213-315): everything up to and excluding the `dnsManager.handlePRMerge`
call. -/
def prMergeRequest (env : Env) (fs : Fs) : Except JsError Request :=
  if !truthy env.prTitle then .error (mkErr prTitleRequiredMsg)
  else
    let title := env.prTitle.getD ""
    match env.prFiles with
    | .malformed m => .error (mkErr s!"Failed to read PR files: {m}")
    | src =>
      let files := match src with
        | .parsed fl => fl
        | _ => []
      match extractWhoisFiles files with
      | .error e => .error e
      | .ok whoisFile =>
        if whoisFile.status = "removed" then prDeleteRequest env fs title whoisFile
        else prUpsertRequest env fs title whoisFile

/-- `DNSSyncHandler.handlePRMerge` (dns-sync.js lines 213-323). -/
def handlePRMerge (env : Env) (fs : Fs) (dns : Dns) : RunOut :=
  dispatchRun env dns (prMergeRequest env fs)

/-- `DNSSyncHandler.handleSync` (dns-sync.js lines 63-89): route on the
trigger type; any failure is caught once, a failure record carrying the
original error message is persisted, and the error is then re-signaled. -/
def handleSync (env : Env) (fs : Fs) (dns : Dns) : RunOut :=
  let triggerType := determineTriggerType env
  let inner := if triggerType = "manual"
    then handleManualTrigger env fs dns
    else handlePRMerge env fs dns
  match inner.result with
  | .ok _ => inner
  | .error e =>
    let m := e.message
    { inner with written := inner.written ++ [.failure m env.now triggerType] }

/-! Concrete example inputs used by the witness and counterexample theorems. -/

/-- Example path environment for the descriptor-loader theorems. -/
def exDir : Env := { workspaceRoot := "/w", cwd := "/c/x/y" }

/-- Filesystem holding a malformed JSON file at the FIRST ALTERNATIVE
candidate (`path.resolve(cwd, '../../', filePath)`) and nothing anywhere
else. -/
def exFsAltMalformed : Fs := fun p =>
  if p = "/c/whois/a.b.json" then .file (.error "Unexpected token o in JSON at position 1")
  else .missing

/-- Filesystem holding a malformed JSON file at the PRIMARY (workspace-root)
candidate and nothing anywhere else. -/
def exFsPrimaryMalformed : Fs := fun p =>
  if p = "/w/whois/m.json" then .file (.error "boom") else .missing

/-- Valid descriptor stored at the first alternative candidate in `exFsOrder`. -/
def exDataAlt1 : WhoisData := { domain := some "a", sld := some "no.kg" }

/-- A different valid descriptor stored at the second alternative candidate in
`exFsOrder`. -/
def exDataAlt2 : WhoisData := { domain := some "z" }

/-- Filesystem with distinct valid descriptors at BOTH alternative
candidates, and nothing at the primary one. -/
def exFsOrder : Fs := fun p =>
  if p = "/c/whois/o.json" then .file (.ok exDataAlt1)
  else if p = "/c/x/y/whois/o.json" then .file (.ok exDataAlt2)
  else .missing

/-- Empty filesystem. -/
def exFsMiss : Fs := fun _ => .missing

/-- DNS collaborator that always succeeds. -/
def exDnsOk : Dns := fun _ => .ok { raw := "ok" }

/-- Environment of a PR-merge run whose change-set removes
`whois/example.no.kg.json`. -/
def envDel : Env :=
  { prTitle := some "Remove example.no.kg",
    prFiles := .parsed [{ filename := "whois/example.no.kg.json", status := "removed" }] }

/-- Environment of a manual run that supplies only an operation (trigger is
manual, but neither a domain nor a whois-file reference is given). -/
def envNoInput : Env := { manualOperation := some "add" }

/-- Environment of a second such manual run, for the orchestrator-envelope
witness. -/
def envNoInput2 : Env := { manualOperation := some "update" }

/-- Descriptor content stored on disk for the upsert witness. -/
def wUpsert : WhoisData :=
  { domain := some "a", sld := some "b", operation := some (.str "update"),
    extra := [("registrant", "alice")] }

/-- Environment of a PR-merge run whose change-set adds `whois/a.b.json`,
with an explicit `add` operation override. -/
def envUpsert : Env :=
  { prTitle := some "Register a.b", opOverride := some "add",
    prFiles := .parsed [{ filename := "whois/a.b.json", status := "added" }] }

/-- Filesystem holding `wUpsert` at the primary candidate for
`whois/a.b.json` under the default workspace root. -/
def fsUpsert : Fs := fun p =>
  if p = "/workspace/whois/a.b.json" then .file (.ok wUpsert) else .missing

/-- Environment of a manual force-sync run for a bare domain whose descriptor
file does not exist. -/
def envSynth : Env :=
  { manualDomain := some "a.no.kg", manualOperation := some "add",
    forceSyncRaw := some "true" }

/-! Helper lemmas shared by the claim theorems. -/

/-- A single-path read attempt that is not a successful parse yields some error. -/
theorem readAt_not_ok (fs : Fs) (q : String) (h : ∀ d, fs q ≠ .file (.ok d)) :
    ∃ e, readAt fs q = .error e := by
  unfold readAt
  rcases hq : fs q with _ | pr | ⟨c, m⟩
  · exact ⟨_, rfl⟩
  · rcases pr with m | d
    · exact ⟨_, rfl⟩
    · exact absurd hq (h d)
  · exact ⟨_, rfl⟩

/-- When a run returns a collaborator result, exactly the one success record
was written. -/
theorem dispatchRun_ok_shape (env : Env) (dns : Dns) (reqE : Except JsError Request)
    (r : SyncResult) (h : (dispatchRun env dns reqE).result = .ok r) :
    (dispatchRun env dns reqE).written = [.success env.now r] := by
  cases reqE with
  | error e => simp [dispatchRun] at h
  | ok req =>
    cases hd : dns req with
    | error e => simp [dispatchRun, hd] at h
    | ok r0 =>
      simp [dispatchRun, hd] at h ⊢
      rw [h]

/-- When a run fails, the handler itself wrote nothing (only the
orchestrator's catch block writes on failure). -/
theorem dispatchRun_error_shape (env : Env) (dns : Dns) (reqE : Except JsError Request)
    (e : JsError) (h : (dispatchRun env dns reqE).result = .error e) :
    (dispatchRun env dns reqE).written = [] := by
  cases reqE with
  | error e0 => rfl
  | ok req =>
    cases hd : dns req with
    | error e0 => simp [dispatchRun, hd]
    | ok r0 => simp [dispatchRun, hd] at h

/-- A successfully reconciled request is dispatched exactly once, whatever
the collaborator then does. -/
theorem dispatchRun_dispatched (env : Env) (dns : Dns) (req : Request) :
    (dispatchRun env dns (.ok req)).dispatched = [req] := by
  cases h : dns req <;> simp [dispatchRun, h]

/-- C1: `parseDomain` fails (with the spec's `InvalidDomainFormat` class,
i.e. the required-string message or the invalid-format message) for a
missing/non-string input, an empty string, and any cleaned form with fewer
than two dot-separated labels; for any cleaned form with at least two labels
it returns the first label as `domain` and the remaining labels joined by
`.` as `sld`. -/
theorem parseDomain_correct :
    parseDomain none = .error (mkErr domainRequiredMsg) ∧
    parseDomain (some "") = .error (mkErr domainRequiredMsg) ∧
    ∀ s : String, s ≠ "" →
      (2 ≤ (domainParts s).length →
        parseDomain (some s) =
          .ok { domain := (domainParts s).head!,
                sld := String.intercalate "." (domainParts s).tail }) ∧
      ((domainParts s).length < 2 →
        parseDomain (some s) = .error (mkErr (invalidDomainMsg s))) := by
  refine ⟨rfl, rfl, ?_⟩
  intro s hs
  constructor
  · intro hlen
    simp only [parseDomain]
    rw [if_neg hs]
    rcases hp : domainParts s with _ | ⟨a, _ | ⟨b, _ | ⟨c, _ | ⟨d, rest⟩⟩⟩⟩
    · rw [hp] at hlen; simp at hlen
    · rw [hp] at hlen; simp at hlen
    · rfl
    · rfl
    · rfl
  · intro hlen
    simp only [parseDomain]
    rw [if_neg hs]
    rcases hp : domainParts s with _ | ⟨a, _ | ⟨b, t⟩⟩
    · rfl
    · rfl
    · rw [hp] at hlen; simp at hlen; omega

/-- C1 witness: the three-label filename `whois/example.no.kg.json` cleans to
`example.no.kg` and parses to domain `example`, sld `no.kg`. -/
theorem parseDomain_correct_wit :
    ("whois/example.no.kg.json" : String) ≠ "" ∧
    parseDomain (some "whois/example.no.kg.json") =
      .ok { domain := "example", sld := "no.kg" } := by
  have h := (parseDomain_correct.2.2 "whois/example.no.kg.json" (by decide)).1 (by decide)
  exact ⟨by decide, by rw [h]; decide⟩

/-- C5 (code bug): `mapOperationType` follows the five-entry table, but a
string outside the table does NOT always pass through unchanged: for the
`Object.prototype` member names (`toString` here) the JS lookup
`operationMap[operation]` finds the truthy inherited member, so the function
object is returned instead of the input string. -/
theorem mapOperationType_proto_leak :
    mapOperationType "toString" = JsStr.protoFn "toString" ∧
    mapOperationType "toString" ≠ JsStr.str "toString" ∧
    mapOperationType "__proto__" = JsStr.protoObj ∧
    mapOperationType "add" = JsStr.str "registration" ∧
    mapOperationType "update" = JsStr.str "update" ∧
    mapOperationType "delete" = JsStr.str "remove" ∧
    mapOperationType "registration" = JsStr.str "registration" ∧
    mapOperationType "remove" = JsStr.str "remove" ∧
    mapOperationType "custom" = JsStr.str "custom" := by
  refine ⟨by decide, by decide, by decide, by decide, by decide, by decide, by decide,
    by decide, by decide⟩

/-- C3: both extractors restrict to filenames starting `whois/` and ending
`.json` (the non-removed variant also drops `status == "removed"`), fail with
the no-descriptor error on zero candidates, return the entry on exactly one,
and fail with the ambiguity error naming every matching filename on two or
more. -/
theorem extract_whois_cases :
    ∀ files : List ChangedFile,
      (files.filter isWhoisDescriptorFile = [] →
        extractWhoisFiles files = .error (mkErr noWhoisFilesMsg)) ∧
      (∀ f, files.filter isWhoisDescriptorFile = [f] →
        extractWhoisFiles files = .ok f) ∧
      (2 ≤ (files.filter isWhoisDescriptorFile).length →
        extractWhoisFiles files = .error (mkErr (multipleWhoisFilesMsg
          ((files.filter isWhoisDescriptorFile).map ChangedFile.filename)))) ∧
      (files.filter (fun f => isWhoisDescriptorFile f && f.status != "removed") = [] →
        extractNonRemovedWhoisFiles files = .error (mkErr noNonRemovedWhoisFilesMsg)) ∧
      (∀ f, files.filter (fun f => isWhoisDescriptorFile f && f.status != "removed") = [f] →
        extractNonRemovedWhoisFiles files = .ok f) ∧
      (2 ≤ (files.filter (fun f => isWhoisDescriptorFile f && f.status != "removed")).length →
        extractNonRemovedWhoisFiles files = .error (mkErr (multipleNonRemovedWhoisFilesMsg
          ((files.filter (fun f => isWhoisDescriptorFile f && f.status != "removed")).map
            ChangedFile.filename)))) := by
  intro files
  refine ⟨?_, ?_, ?_, ?_, ?_, ?_⟩
  · intro h
    simp only [extractWhoisFiles, h]
  · intro f h
    simp only [extractWhoisFiles, h]
  · intro h
    rcases hp : files.filter isWhoisDescriptorFile with _ | ⟨a, _ | ⟨b, t⟩⟩
    · rw [hp] at h; simp at h
    · rw [hp] at h; simp at h
    · simp only [extractWhoisFiles, hp]
  · intro h
    simp only [extractNonRemovedWhoisFiles, h]
  · intro f h
    simp only [extractNonRemovedWhoisFiles, h]
  · intro h
    rcases hp : files.filter (fun f => isWhoisDescriptorFile f && f.status != "removed")
      with _ | ⟨a, _ | ⟨b, t⟩⟩
    · rw [hp] at h; simp at h
    · rw [hp] at h; simp at h
    · simp only [extractNonRemovedWhoisFiles, hp]

/-- C3 witness: a change-set with two descriptor files is rejected with an
error naming both filenames. -/
theorem extract_whois_cases_wit :
    ([⟨"whois/a.json", "added"⟩, ⟨"whois/b.json", "removed"⟩] : List ChangedFile).filter
        isWhoisDescriptorFile =
      [⟨"whois/a.json", "added"⟩, ⟨"whois/b.json", "removed"⟩] ∧
    extractWhoisFiles [⟨"whois/a.json", "added"⟩, ⟨"whois/b.json", "removed"⟩] =
      .error (mkErr "Multiple whois files found in PR changes: whois/a.json, whois/b.json") := by
  have h := (extract_whois_cases
    [⟨"whois/a.json", "added"⟩, ⟨"whois/b.json", "removed"⟩]).2.2.1 (by decide)
  exact ⟨by decide, by rw [h]; decide⟩

/-- C6 counterexample: with the descriptor absent at the primary and second
alternative candidates but PRESENT AND MALFORMED at the first alternative
candidate, `readWhoisFile` does not report the malformed-data error; the
nested catch treats the parse failure like a miss, falls through, and the
surfaced error is the generic wrap of the not-found-at-any-path message. -/
theorem readWhoisFile_alt_malformed_counterex :
    exFsAltMalformed (candidateAlt1 exDir "whois/a.b.json") =
      .file (.error "Unexpected token o in JSON at position 1") ∧
    readWhoisFile exDir exFsAltMalformed "whois/a.b.json" =
      .error (mkErr (readFailWrapMsg "whois/a.b.json" (notFoundAnyPathMsg "whois/a.b.json"))) ∧
    readWhoisFile exDir exFsAltMalformed "whois/a.b.json" ≠
      .error (mkErr (invalidJsonMsg "whois/a.b.json")) := by
  refine ⟨by decide, by decide, by decide⟩

/-- C6 (amended): the malformed-data error is reported exactly for a parse
failure at the PRIMARY (workspace-root) candidate; an ENOENT during the
primary read gives the not-found error, any other primary I/O error gives the
generic read-failure wrap, and when the primary candidate is absent and
neither alternative candidate holds a readable, parseable file, the surfaced
error is the read-failure wrap of the not-found-at-any-path message —
malformed files at alternative candidates are never reported as malformed. -/
theorem readWhoisFile_error_taxonomy (env : Env) (fs : Fs) (p : String) :
    (∀ m, fs (candidateFull env p) = .file (.error m) →
      readWhoisFile env fs p = .error (mkErr (invalidJsonMsg p))) ∧
    (∀ m, fs (candidateFull env p) = .ioErr (some "ENOENT") m →
      readWhoisFile env fs p = .error (mkErr (notFoundMsg p))) ∧
    (∀ c m, fs (candidateFull env p) = .ioErr c m → c ≠ some "ENOENT" →
      readWhoisFile env fs p = .error (mkErr (readFailWrapMsg p m))) ∧
    (fs (candidateFull env p) = .missing →
      (∀ d, fs (candidateAlt1 env p) ≠ .file (.ok d)) →
      (∀ d, fs (candidateAlt2 env p) ≠ .file (.ok d)) →
      readWhoisFile env fs p = .error (mkErr (readFailWrapMsg p (notFoundAnyPathMsg p)))) := by
  refine ⟨?_, ?_, ?_, ?_⟩
  · intro m h
    simp only [readWhoisFile, readAt, h]
    simp
  · intro m h
    simp only [readWhoisFile, readAt, h]
    simp
  · intro c m h hc
    simp only [readWhoisFile, readAt, h]
    rw [if_neg hc]
    rfl
  · intro h h1 h2
    obtain ⟨e1, he1⟩ := readAt_not_ok fs (candidateAlt1 env p) h1
    obtain ⟨e2, he2⟩ := readAt_not_ok fs (candidateAlt2 env p) h2
    simp only [readWhoisFile, h, he1, he2]
    simp [mkErr]

/-- C6 amended-claim witness: a malformed file at the primary candidate is
reported with the invalid-JSON error. -/
theorem readWhoisFile_error_taxonomy_wit :
    readWhoisFile exDir exFsPrimaryMalformed "whois/m.json" =
      .error (mkErr (invalidJsonMsg "whois/m.json")) :=
  (readWhoisFile_error_taxonomy exDir exFsPrimaryMalformed "whois/m.json").1 "boom" (by decide)

/-- C7: the candidates are consulted in the fixed order (a) workspace root,
(b) two levels above the working directory, (c) the working directory, and
the parsed content of the first candidate at which the file is found (and
parses) is returned; since the filesystem is arbitrary at every other path,
later candidates cannot influence the result after a success. -/
theorem readWhoisFile_resolution_order (env : Env) (fs : Fs) (p : String) (d : WhoisData) :
    (fs (candidateFull env p) = .file (.ok d) → readWhoisFile env fs p = .ok d) ∧
    (fs (candidateFull env p) = .missing → fs (candidateAlt1 env p) = .file (.ok d) →
      readWhoisFile env fs p = .ok d) ∧
    (fs (candidateFull env p) = .missing → fs (candidateAlt1 env p) = .missing →
      fs (candidateAlt2 env p) = .file (.ok d) → readWhoisFile env fs p = .ok d) := by
  refine ⟨?_, ?_, ?_⟩
  · intro h
    simp only [readWhoisFile, readAt, h]
  · intro h h1
    simp only [readWhoisFile, readAt, h, h1]
  · intro h h1 h2
    simp only [readWhoisFile, readAt, h, h1, h2]

/-- C7 witness: with valid but DIFFERENT descriptors at both alternative
candidates and nothing at the primary one, the first alternative wins. -/
theorem readWhoisFile_resolution_order_wit :
    readWhoisFile exDir exFsOrder "whois/o.json" = .ok exDataAlt1 :=
  (readWhoisFile_resolution_order exDir exFsOrder "whois/o.json" exDataAlt1).2.1
    (by decide) (by decide)

/-- C4: every orchestrator run persists exactly one result record — the
success record written by the handler, or else the failure record
`{success:false, error, timestamp, triggerType}` appended by the catch block
before the error is re-signaled (in the trace model, the failure record is
already in `written` whenever the returned `result` is the error). -/
theorem handleSync_one_record (env : Env) (fs : Fs) (dns : Dns) :
    (handleSync env fs dns).written.length = 1 ∧
    (∀ e, (handleSync env fs dns).result = .error e →
      (handleSync env fs dns).written =
        [.failure e.message env.now (determineTriggerType env)]) := by
  by_cases ht : determineTriggerType env = "manual"
  · simp only [handleSync, handleManualTrigger, handlePRMerge, ht, if_true]
    cases hres : (dispatchRun env dns (manualRequest env fs)).result with
    | ok r =>
      have hw := dispatchRun_ok_shape env dns (manualRequest env fs) r hres
      simp [hres, hw]
    | error e =>
      have hw := dispatchRun_error_shape env dns (manualRequest env fs) e hres
      simp [hres, hw]
  · simp only [handleSync, handleManualTrigger, handlePRMerge, ht, if_false]
    cases hres : (dispatchRun env dns (prMergeRequest env fs)).result with
    | ok r =>
      have hw := dispatchRun_ok_shape env dns (prMergeRequest env fs) r hres
      simp [hres, hw]
    | error e =>
      have hw := dispatchRun_error_shape env dns (prMergeRequest env fs) e hres
      simp [hres, hw]

/-- C4 witness: a failing manual run (no inputs) writes exactly the one
failure record carrying the original error message. -/
theorem handleSync_one_record_wit :
    (handleSync envNoInput2 exFsMiss exDnsOk).written.length = 1 ∧
    (handleSync envNoInput2 exFsMiss exDnsOk).written =
      [.failure missingManualInputMsg envNoInput2.now (determineTriggerType envNoInput2)] := by
  have h := handleSync_one_record envNoInput2 exFsMiss exDnsOk
  exact ⟨h.1, by rw [h.2 (mkErr missingManualInputMsg) (by decide)]; rfl⟩

/-- C8: a manual-trigger run with neither a manual domain nor a manual
whois-file reference fails with the missing-manual-input error and still
persists the failure record with a non-empty error message and trigger type
`manual`. -/
theorem manual_missing_input (env : Env) (fs : Fs) (dns : Dns)
    (hd : truthy env.manualDomain = false)
    (hw : truthy env.manualWhoisFile = false)
    (ht : determineTriggerType env = "manual") :
    (handleSync env fs dns).result = .error (mkErr missingManualInputMsg) ∧
    (handleSync env fs dns).written =
      [.failure missingManualInputMsg env.now "manual"] ∧
    missingManualInputMsg ≠ "" := by
  have hreq : manualRequest env fs = .error (mkErr missingManualInputMsg) := by
    unfold manualRequest
    rw [hd, hw]
    rfl
  refine ⟨?_, ?_, by decide⟩
  · simp [handleSync, handleManualTrigger, ht, hreq, dispatchRun]
  · simp [handleSync, handleManualTrigger, ht, hreq, dispatchRun, mkErr]

/-- C8 witness: a manual run selected by `MANUAL_OPERATION=add` alone fails
with the missing-input error and writes the failure record. -/
theorem manual_missing_input_wit :
    (handleSync envNoInput exFsMiss exDnsOk).result = .error (mkErr missingManualInputMsg) ∧
    (handleSync envNoInput exFsMiss exDnsOk).written =
      [.failure missingManualInputMsg envNoInput.now "manual"] ∧
    missingManualInputMsg ≠ "" :=
  manual_missing_input envNoInput exFsMiss exDnsOk (by decide) (by decide) (by decide)

/-- C2: a PR-merge change-set consisting of exactly one `removed` entry at
`whois/example.no.kg.json` yields a delete dispatch with domain `example` and
sld `no.kg` parsed from the filename alone, for EVERY filesystem — the
descriptor need not exist, the best-effort original data is attached only
when its read succeeds, and a failed read (or mismatching content, which the
code only logs) never prevents the dispatch. -/
theorem prMerge_removed_dispatch (env : Env) (fs : Fs) (dns : Dns)
    (ht : truthy env.prTitle = true)
    (hf : env.prFiles = .parsed [⟨"whois/example.no.kg.json", "removed"⟩]) :
    prMergeRequest env fs =
      .ok (.prDelete (env.prTitle.getD "") "example" "no.kg" "delete"
        (prDeleteOriginalData env fs "whois/example.no.kg.json")) ∧
    (handlePRMerge env fs dns).dispatched =
      [.prDelete (env.prTitle.getD "") "example" "no.kg" "delete"
        (prDeleteOriginalData env fs "whois/example.no.kg.json")] ∧
    (∀ d, prDeleteOriginalData env fs "whois/example.no.kg.json" = some d →
      readWhoisFile env fs (prReadPath env "whois/example.no.kg.json") = .ok d) ∧
    ((∃ e, readWhoisFile env fs (prReadPath env "whois/example.no.kg.json") = .error e) →
      prDeleteOriginalData env fs "whois/example.no.kg.json" = none) := by
  have hreq : prMergeRequest env fs =
      .ok (.prDelete (env.prTitle.getD "") "example" "no.kg" "delete"
        (prDeleteOriginalData env fs "whois/example.no.kg.json")) := by
    unfold prMergeRequest
    rw [ht, hf]
    rfl
  refine ⟨hreq, ?_, ?_, ?_⟩
  · simp only [handlePRMerge, hreq]
    exact dispatchRun_dispatched env dns _
  · intro d hd
    unfold prDeleteOriginalData at hd
    by_cases hwfp : truthy env.whoisFilePath = true
    · rw [hwfp] at hd
      simp at hd
      cases hr : readWhoisFile env fs (prReadPath env "whois/example.no.kg.json") with
      | ok d0 => rw [hr] at hd; simp at hd; rw [hd]
      | error e0 => rw [hr] at hd; simp at hd
    · simp [hwfp] at hd
  · intro ⟨e, he⟩
    unfold prDeleteOriginalData
    by_cases hwfp : truthy env.whoisFilePath = true
    · rw [hwfp]
      simp [he]
    · simp [hwfp]

/-- C2 witness: with an empty filesystem (the removed descriptor exists
nowhere), the deletion request is still dispatched, with no original data. -/
theorem prMerge_removed_dispatch_wit :
    (handlePRMerge envDel exFsMiss exDnsOk).dispatched =
      [.prDelete "Remove example.no.kg" "example" "no.kg" "delete" none] := by
  have h := (prMerge_removed_dispatch envDel exFsMiss exDnsOk (by decide) (by decide)).2.1
  rw [h]; decide

/-- C9: in the PR-merge upsert path, when the operation override defaults to
`auto` the loaded descriptor is dispatched exactly as loaded, and when the
override is any other value only the descriptor's `operation` field is
overwritten (with the mapped override) while `domain`, `sld` and all other
payload are unchanged. -/
theorem prMerge_upsert_override (env : Env) (fs : Fs) (dns : Dns) (f : ChangedFile)
    (w : WhoisData)
    (ht : truthy env.prTitle = true)
    (hf : env.prFiles = .parsed [f])
    (hq : isWhoisDescriptorFile f = true)
    (hs : f.status ≠ "removed")
    (hr : readWhoisFile env fs (prReadPath env f.filename) = .ok w) :
    (orDefault env.opOverride "auto" = "auto" →
      prMergeRequest env fs = .ok (.prUpsert (env.prTitle.getD "") w) ∧
      (handlePRMerge env fs dns).dispatched = [.prUpsert (env.prTitle.getD "") w]) ∧
    (∀ op, orDefault env.opOverride "auto" = op → op ≠ "auto" →
      prMergeRequest env fs =
        .ok (.prUpsert (env.prTitle.getD "")
          { w with operation := some (mapOperationType op) }) ∧
      (handlePRMerge env fs dns).dispatched =
        [.prUpsert (env.prTitle.getD "")
          { w with operation := some (mapOperationType op) }] ∧
      ({ w with operation := some (mapOperationType op) }).domain = w.domain ∧
      ({ w with operation := some (mapOperationType op) }).sld = w.sld ∧
      ({ w with operation := some (mapOperationType op) }).extra = w.extra) := by
  have hex : extractWhoisFiles [f] = .ok f := by
    simp [extractWhoisFiles, List.filter, hq]
  have hbase : prMergeRequest env fs = prUpsertRequest env fs (env.prTitle.getD "") f := by
    unfold prMergeRequest
    rw [ht, hf]
    simp only [Bool.not_true, Bool.false_eq_true, if_false, hex]
    rw [if_neg hs]
  constructor
  · intro hauto
    have hreq : prMergeRequest env fs = .ok (.prUpsert (env.prTitle.getD "") w) := by
      rw [hbase]
      simp [prUpsertRequest, hr, hauto]
    refine ⟨hreq, ?_⟩
    simp only [handlePRMerge, hreq]
    exact dispatchRun_dispatched env dns _
  · intro op hop hne
    have hreq : prMergeRequest env fs =
        .ok (.prUpsert (env.prTitle.getD "")
          { w with operation := some (mapOperationType op) }) := by
      rw [hbase]
      simp [prUpsertRequest, hr, hop, hne]
    refine ⟨hreq, ?_, rfl, rfl, rfl⟩
    simp only [handlePRMerge, hreq]
    exact dispatchRun_dispatched env dns _

/-- C9 witness: an `added` descriptor loaded from disk is dispatched with
only its operation field rewritten (`add` maps to `registration`), the other
fields intact. -/
theorem prMerge_upsert_override_wit :
    (handlePRMerge envUpsert fsUpsert exDnsOk).dispatched =
      [.prUpsert "Register a.b"
        { domain := some "a", sld := some "b", operation := some (.str "registration"),
          extra := [("registrant", "alice")] }] := by
  have h := ((prMerge_upsert_override envUpsert fsUpsert exDnsOk
    ⟨"whois/a.b.json", "added"⟩ wUpsert (by decide) (by decide) (by decide) (by decide)
    (by decide)).2 "add" (by decide) (by decide)).2.1
  rw [h]; decide

/-- C10: in the manual path, when no descriptor could be loaded (here: the
conventional file is unreadable and force-sync is on) but a domain string is
present, the synthesized descriptor's `operation` field carries the RAW
requested operation while the dispatched options carry the MAPPED one; for
any operation the table rewrites, the two dispatched fields differ. -/
theorem manual_synth_mismatch (env : Env) (fs : Fs) (dns : Dns) (d : String)
    (ref : DomainReference)
    (hd : env.manualDomain = some d) (hdne : d ≠ "")
    (hwf : truthy env.manualWhoisFile = false)
    (hforce : env.forceSyncRaw = some "true")
    (hread : ∃ e, readWhoisFile env fs (manualDomainFilePath env d) = .error e)
    (hparse : parseDomain (some d) = .ok ref) :
    manualRequest env fs =
      .ok (.manualSync (orDefault env.prTitle "Manual DNS Sync")
        (some { domain := some ref.domain, sld := some ref.sld,
                operation := some (.str (orDefault env.manualOperation "auto")) })
        (mapOperationType (orDefault env.manualOperation "auto")) true
        (orDefault env.githubActor "unknown")) ∧
    (handleManualTrigger env fs dns).dispatched =
      [.manualSync (orDefault env.prTitle "Manual DNS Sync")
        (some { domain := some ref.domain, sld := some ref.sld,
                operation := some (.str (orDefault env.manualOperation "auto")) })
        (mapOperationType (orDefault env.manualOperation "auto")) true
        (orDefault env.githubActor "unknown")] ∧
    (mapOperationType (orDefault env.manualOperation "auto") ≠
        .str (orDefault env.manualOperation "auto") →
      (some (JsStr.str (orDefault env.manualOperation "auto")) : Option JsStr) ≠
        some (mapOperationType (orDefault env.manualOperation "auto"))) := by
  obtain ⟨e, he⟩ := hread
  have htd : truthy env.manualDomain = true := by
    rw [hd]; simp [truthy, hdne]
  have hfb : (decide (env.forceSyncRaw = some "true")) = true := by
    rw [hforce]; decide
  have hl1 : manualLoadFromFile env fs true = .ok none := by
    simp [manualLoadFromFile, hwf]
  have hl2 : manualLoadFromDomain env fs true none = .ok none := by
    simp [manualLoadFromDomain, htd, hd, he]
  have hsyn : manualSynthesize env (orDefault env.manualOperation "auto") none =
      .ok (some { domain := some ref.domain, sld := some ref.sld,
                  operation := some (.str (orDefault env.manualOperation "auto")) }) := by
    simp [manualSynthesize, hd, truthy, hdne, hparse]
  have hreq : manualRequest env fs =
      .ok (.manualSync (orDefault env.prTitle "Manual DNS Sync")
        (some { domain := some ref.domain, sld := some ref.sld,
                operation := some (.str (orDefault env.manualOperation "auto")) })
        (mapOperationType (orDefault env.manualOperation "auto")) true
        (orDefault env.githubActor "unknown")) := by
    unfold manualRequest
    rw [htd]
    simp only [Bool.not_true, Bool.false_and, Bool.false_eq_true, if_false, hfb, hl1, hl2, hsyn]
  refine ⟨hreq, ?_, ?_⟩
  · simp only [handleManualTrigger, hreq]
    exact dispatchRun_dispatched env dns _
  · intro hne hcontra
    exact hne (Option.some_injective _ hcontra).symm

/-- C10 witness: a force-synced manual `add` for `a.no.kg` with no readable
descriptor dispatches a synthesized descriptor whose operation field is the
raw `add`, together with options operation `registration` — two different
values. -/
theorem manual_synth_mismatch_wit :
    (handleManualTrigger envSynth exFsMiss exDnsOk).dispatched =
      [.manualSync "Manual DNS Sync"
        (some { domain := some "a", sld := some "no.kg", operation := some (.str "add") })
        (.str "registration") true "unknown"] ∧
    JsStr.str "add" ≠ JsStr.str "registration" := by
  have h := (manual_synth_mismatch envSynth exFsMiss exDnsOk "a.no.kg" ⟨"a", "no.kg"⟩
    (by decide) (by decide) (by decide) (by decide)
    ⟨mkErr (readFailWrapMsg "whois/a.no.kg.json" (notFoundAnyPathMsg "whois/a.no.kg.json")),
      by decide⟩ (by decide)).2.1
  exact ⟨by rw [h]; decide, by decide⟩
